import Mathlib

/-!
Verification of the position risk-management core of the TradingBot repository
(`app/tv-binance-bot/main.py`), shallowly embedded over `ℚ`.

The embedding follows the source line by line:
* `compute_stop_state` (main.py lines 723-1073) split into helper definitions
  that correspond to the local variables of the Python function;
* the extreme-price update step of `check_trailing_stop` (lines 1249-1260,
  1376-1388) and its close/failure handling (lines 1344-1372, 1467-1494);
* the per-symbol step of `check_binance_non_bot_positions` (lines 269-480);
* `check_portfolio_trailing_stop` (lines 487-619);
* the close operations and the `close_position` endpoint (lines 6232-6299).
-/

namespace TVBot

/-- TrailingSideConfig (main.py lines 1666-1670): per-side global trailing
settings.  The fields are modelled as `Option ℚ` because `compute_stop_state`
guards each access with an `is not None` check. -/
structure TrailingSideConfig where
  profit_threshold_pct : Option ℚ
  lock_ratio : Option ℚ
  base_sl_pct : Option ℚ
deriving Repr, DecidableEq

/-- TrailingConfig (main.py lines 1673-1705) together with the `DYN_*`
environment defaults (lines 80-83) read by `compute_stop_state`. -/
structure GlobalConfig where
  trailing_enabled : Option Bool
  long_config : TrailingSideConfig
  short_config : TrailingSideConfig
  dynTrailingEnabled : Bool
  dynProfitThresholdPct : ℚ
  dynLockRatioDefault : ℚ
  dynBaseSlPct : ℚ
deriving Repr, DecidableEq

/-- TrailingConfig.get_config_for_side (main.py lines 1696-1705): LONG and the
default branch return the long config, SHORT returns the short config. -/
def GlobalConfig.get_config_for_side (cfg : GlobalConfig) (side : String) :
    TrailingSideConfig :=
  if side = "LONG" then cfg.long_config
  else if side = "SHORT" then cfg.short_config
  else cfg.long_config

/-- The slice of a Position row (or of the duck-typed TempPosition built in
`check_binance_non_bot_positions`, lines 349-363) read by
`compute_stop_state`.  `qty` is `none` for TempPosition, which has no `qty`
attribute (`getattr(position, 'qty', 0)`, line 757). -/
structure PositionSnapshot where
  entry_price : ℚ
  highest_price : Option ℚ
  side : String
  trail_callback : Option ℚ
  dyn_profit_threshold_pct : Option ℚ
  base_stop_loss_pct : Option ℚ
  qty : Option ℚ
deriving Repr, DecidableEq

/-- StopState (main.py lines 715-720): the result of one calculator call. -/
structure StopState where
  stop_mode : String
  base_stop_price : Option ℚ
  dynamic_stop_price : Option ℚ
deriving Repr, DecidableEq

/-- Lines 764-772: position override of the base stop-loss percentage, else
the per-side global value, else the `DYN_BASE_SL_PCT` default. -/
def resolved_base_sl_pct (cfg : GlobalConfig) (p : PositionSnapshot) : ℚ :=
  p.base_stop_loss_pct.getD
    ((cfg.get_config_for_side p.side).base_sl_pct.getD cfg.dynBaseSlPct)

/-- Lines 766-777: position override of the profit threshold, else the
per-side global value, else the `DYN_PROFIT_THRESHOLD_PCT` default. -/
def resolved_profit_threshold_pct (cfg : GlobalConfig) (p : PositionSnapshot) : ℚ :=
  p.dyn_profit_threshold_pct.getD
    ((cfg.get_config_for_side p.side).profit_threshold_pct.getD cfg.dynProfitThresholdPct)

/-- Lines 779-789: the lock ratio chosen for this position.  A
`trail_callback` of `None` falls back to the per-side global value (or the
`DYN_LOCK_RATIO_DEFAULT`); exactly 0 is the sentinel disabling dynamic mode;
any other value is used as is. -/
def raw_lock_ratio (cfg : GlobalConfig) (p : PositionSnapshot) : Option ℚ :=
  match p.trail_callback with
  | none =>
    some ((cfg.get_config_for_side p.side).lock_ratio.getD cfg.dynLockRatioDefault)
  | some tc => if tc = 0 then none else some tc

/-- Lines 791-796: the range guard.  Non-positive ratios are dropped, ratios
above 1 are clamped to 1. -/
def clamp_lock_ratio : Option ℚ → Option ℚ
  | none => none
  | some r => if r ≤ 0 then none else if 1 < r then some 1 else some r

/-- Lines 779-796: resolution plus range guard of the effective lock ratio. -/
def resolved_lock_ratio (cfg : GlobalConfig) (p : PositionSnapshot) : Option ℚ :=
  clamp_lock_ratio (raw_lock_ratio cfg p)

/-- Line 762: the global trailing flag, defaulting to `DYN_TRAILING_ENABLED`. -/
def resolved_trailing_enabled (cfg : GlobalConfig) : Bool :=
  cfg.trailing_enabled.getD cfg.dynTrailingEnabled

/-- Lines 836-840 and 965-969: a position-level override is present. -/
def has_override (p : PositionSnapshot) : Bool :=
  p.trail_callback.isSome || p.dyn_profit_threshold_pct.isSome ||
    p.base_stop_loss_pct.isSome

/-- Lines 842 and 971: overrides force trailing on even when the global flag
is off, provided a lock ratio is in effect. -/
def effective_trailing_enabled (cfg : GlobalConfig) (p : PositionSnapshot) : Bool :=
  resolved_trailing_enabled cfg ||
    (has_override p && (resolved_lock_ratio cfg p).isSome)

/-- Line 757: `qty if qty is not None else getattr(position, 'qty', 0)`. -/
def effective_qty (p : PositionSnapshot) (qty : Option ℚ) : ℚ :=
  qty.getD (p.qty.getD 0)

/-- Line 758: `leverage if leverage is not None else 20`. -/
def effective_leverage (leverage : Option ℚ) : ℚ :=
  leverage.getD 20

/-- Lines 800-808 (LONG) and 929-937 (SHORT): the local copy of the extreme
price, seeded with the mark price when no extreme is stored, then pushed in
the favorable direction by the current mark price. -/
def local_best (side : String) (highest : Option ℚ) (mark : ℚ) : ℚ :=
  let b := highest.getD mark
  if side = "SHORT" then (if mark < b then mark else b)
  else (if mark > b then mark else b)

/-- Lines 810-812 (LONG) and 939-941 (SHORT): price-percentage profit based on
the extreme price. -/
def price_profit_pct (side : String) (entry best : ℚ) : ℚ :=
  if side = "SHORT" then (if 0 < entry then (entry - best) / entry * 100 else 0)
  else (if 0 < entry then (best - entry) / entry * 100 else 0)

/-- Lines 819-827 (LONG) and 948-956 (SHORT): margin-based base stop price,
available only when the percentage, entry, quantity and leverage are all
positive.  `margin = entry * qty / leverage`. -/
def base_stop_price_calc (side : String) (entry best qty lev base_sl_pct : ℚ) :
    Option ℚ :=
  if 0 < base_sl_pct ∧ 0 < entry ∧ 0 < qty ∧ 0 < lev then
    let margin := entry * qty / lev
    if side = "SHORT" then some (best + margin * base_sl_pct / 100 / qty)
    else some (best - margin * base_sl_pct / 100 / qty)
  else none

/-- Lines 850-876 (LONG) and 978-1003 (SHORT): the profit percentage "based on
best" used for the threshold test.  When `unrealized_pnl_pct` is supplied and
the mark differs from the entry, it is re-scaled by the ratio of the extreme
excursion to the current excursion; when the mark equals the entry the raw
value is used; without a supplied percentage the price percentage based on
the extreme is used. -/
def pbbft_calc (side : String) (entry best mark : ℚ) (pnl : Option ℚ) : ℚ :=
  match pnl with
  | none => price_profit_pct side entry best
  | some u =>
    if mark ≠ entry ∧ 0 < entry then
      let ratio :=
        if side = "SHORT" then
          (if entry - mark ≠ 0 then (entry - best) / (entry - mark) else 1)
        else
          (if mark - entry ≠ 0 then (best - entry) / (mark - entry) else 1)
      u * ratio
    else u

/-- Lines 900 (LONG) and 1027 (SHORT): the dynamic (trailing) stop price. -/
def dyn_stop_price_calc (side : String) (entry best lr : ℚ) : ℚ :=
  if side = "SHORT" then entry - (entry - best) * lr
  else entry + (best - entry) * lr

/-- Lines 894-898 and 1021-1025: dynamic mode activates when trailing is
effectively enabled, a lock ratio is in effect, and the extreme-based profit
percentage has reached the threshold. -/
def dyn_flag (cfg : GlobalConfig) (p : PositionSnapshot) (mark : ℚ)
    (pnl : Option ℚ) : Bool :=
  effective_trailing_enabled cfg p && (resolved_lock_ratio cfg p).isSome &&
    decide (resolved_profit_threshold_pct cfg p ≤
      pbbft_calc p.side p.entry_price (local_best p.side p.highest_price mark) mark pnl)

/-- The shared body of the LONG branch (lines 798-925) and the SHORT branch
(lines 927-1051) of `compute_stop_state`; the two branches are mirror images
and every side-dependent step is delegated to a helper taking the side. -/
def stop_state_for_side (cfg : GlobalConfig) (p : PositionSnapshot) (mark : ℚ)
    (unrealized_pnl_pct : Option ℚ) (leverage qty : Option ℚ) : StopState :=
  let entry := p.entry_price
  let best := local_best p.side p.highest_price mark
  let base_sl_pct := resolved_base_sl_pct cfg p
  let profit_threshold_pct := resolved_profit_threshold_pct cfg p
  let lock_ratio := resolved_lock_ratio cfg p
  let base_stop_price :=
    base_stop_price_calc p.side entry best (effective_qty p qty)
      (effective_leverage leverage) base_sl_pct
  let pb := pbbft_calc p.side entry best mark unrealized_pnl_pct
  let dyn := dyn_flag cfg p mark unrealized_pnl_pct
  let dynamic_stop_price :=
    if dyn then some (dyn_stop_price_calc p.side entry best (lock_ratio.getD 0))
    else none
  let stop_mode :=
    if dyn then "dynamic"
    else if decide (0 < base_sl_pct) &&
        (decide (pb < profit_threshold_pct) || has_override p) then "base"
    else "none"
  { stop_mode := stop_mode, base_stop_price := base_stop_price,
    dynamic_stop_price := dynamic_stop_price }

/-- compute_stop_state (main.py lines 723-1073): `entry <= 0` short-circuits
to mode none (lines 748-754); an unknown side returns mode none
(lines 1053-1059); otherwise the side branch runs. -/
def compute_stop_state (cfg : GlobalConfig) (p : PositionSnapshot)
    (mark_price : ℚ) (unrealized_pnl_pct : Option ℚ)
    (leverage qty : Option ℚ) : StopState :=
  if p.entry_price ≤ 0 then
    { stop_mode := "none", base_stop_price := none, dynamic_stop_price := none }
  else if p.side = "LONG" ∨ p.side = "SHORT" then
    stop_state_for_side cfg p mark_price unrealized_pnl_pct leverage qty
  else
    { stop_mode := "none", base_stop_price := none, dynamic_stop_price := none }

/-- The unrealized PnL percentage the worker computes before calling the
calculator (check_trailing_stop, lines 1262-1284 for LONG and 1392-1414 for
SHORT): `(mark - entry) * qty / ((entry * qty) / leverage) * 100` for LONG. -/
def caller_unrealized_pnl_pct (side : String) (entry mark qty lev : ℚ) : ℚ :=
  if side = "SHORT" then (entry - mark) * qty / (entry * qty / lev) * 100
  else (mark - entry) * qty / (entry * qty / lev) * 100

/-- The extreme-price update step of `check_trailing_stop` (lines 1249-1260
for LONG, 1376-1388 for SHORT).  Returns the new stored extreme and whether
the evaluation continues past the update: on the first observation the
extreme is initialized to the current price and the function returns (the
stop check is skipped for that cycle). -/
def check_trailing_stop_extreme_update (side : String) (stored : Option ℚ)
    (current_price : ℚ) : Option ℚ × Bool :=
  if side = "LONG" then
    match stored with
    | none => (some current_price, false)
    | some best =>
      (some (if current_price > best then current_price else best), true)
  else if side = "SHORT" then
    match stored with
    | none => (some current_price, false)
    | some best =>
      (some (if current_price < best then current_price else best), true)
  else (stored, false)

/-- The Position-row fields touched by the close operations. -/
structure PositionRec where
  status : String
  exit_price : Option ℚ
  exit_reason : Option String
deriving Repr, DecidableEq

/-- The triggered-close block of `check_trailing_stop` (lines 1344-1372 for
LONG, 1467-1494 for SHORT): on success the position is CLOSED with exit data;
if the exchange close call throws, the position is set to ERROR and the error
is re-raised. -/
def close_triggered_position (p : PositionRec) (mode : String)
    (exchange : Except Unit ℚ) : PositionRec :=
  match exchange with
  | Except.ok exit_price =>
    { p with status := "CLOSED", exit_price := some exit_price,
             exit_reason :=
               some (if mode = "dynamic_trailing" then "dynamic_stop" else "base_stop") }
  | Except.error _ => { p with status := "ERROR" }

/-- Outcome of the `close_position` endpoint. -/
inductive CloseResponse where
  | ok : CloseResponse
  | httpError : Nat → CloseResponse
deriving Repr, DecidableEq

/-- close_position endpoint (main.py lines 6232-6299): 404 when the row does
not exist, 400 when the status is not OPEN (the row is not touched), then the
exchange close; on success the row becomes CLOSED with exit data, on failure
it becomes ERROR and a 500 is raised. -/
def close_position (position : Option PositionRec) (exchange : Except Unit ℚ) :
    Option PositionRec × CloseResponse :=
  match position with
  | none => (none, CloseResponse.httpError 404)
  | some p =>
    if p.status ≠ "OPEN" then (some p, CloseResponse.httpError 400)
    else
      match exchange with
      | Except.ok exit_price =>
        (some { p with status := "CLOSED", exit_price := some exit_price,
                       exit_reason := some "manual_close" }, CloseResponse.ok)
      | Except.error _ =>
        (some { p with status := "ERROR" }, CloseResponse.httpError 500)

/-- The in-memory tracking entry for a non-bot position
(`_non_bot_position_tracking`, written at lines 341-346). -/
structure NonBotTracked where
  entry_price : Option ℚ
  highest_price : Option ℚ
  side : String
deriving Repr, DecidableEq

/-- The relative-difference test of line 319:
`abs(tracked - entry) / max(abs(tracked), abs(entry), 1.0)`. -/
def rel_diff (a b : ℚ) : ℚ :=
  |a - b| / max (max |a| |b|) 1

/-- Lines 312-346 of `check_binance_non_bot_positions`: resolve the tracking
entry for one exchange position.  A missing prior entry, a null tracked entry
price, or a tracked entry price differing from the live one by more than 0.1%
resets the tracking; the extreme is then initialized to
`max(mark, entry)` (LONG) / `min(mark, entry)` (SHORT) when the entry price
is positive, else to the mark price, and otherwise pushed in the favorable
direction by the mark price. -/
def non_bot_tracking_update (prior : Option NonBotTracked) (side : String)
    (entry_price mark_price : ℚ) : NonBotTracked :=
  let resolved : ℚ × Option ℚ :=
    match prior with
    | some t =>
      match t.entry_price with
      | none => (entry_price, none)
      | some te =>
        if 1/1000 < rel_diff te entry_price then (entry_price, none)
        else (te, t.highest_price)
    | none => (entry_price, none)
  let tracked_entry := resolved.1
  let tracked_highest : ℚ :=
    if side = "LONG" then
      match resolved.2 with
      | none => if 0 < entry_price then max mark_price entry_price else mark_price
      | some h => max h mark_price
    else
      match resolved.2 with
      | none => if 0 < entry_price then min mark_price entry_price else mark_price
      | some h => min h mark_price
  { entry_price := some tracked_entry, highest_price := some tracked_highest,
    side := side }

/-- Lines 365-372: the unrealized PnL percentage derived from the exchange
snapshot for a non-bot position. -/
def non_bot_pnl_pct (entry_price position_amt unrealized_pnl leverage : ℚ) :
    Option ℚ :=
  if 0 < entry_price ∧ 0 < |position_amt| ∧ 0 < leverage then
    let notional := |position_amt| * entry_price
    if 0 < notional then
      let margin := notional / leverage
      if 0 < margin then some (unrealized_pnl / margin * 100) else none
    else none
  else none

/-- The trigger test shared by both worker branches (lines 382-397 and
1296-1309/1426-1439): in dynamic mode only the dynamic stop price is used, in
base mode only the base stop price; LONG triggers at `mark <= stop`, SHORT at
`mark >= stop`. -/
def stop_triggered (side : String) (mark : ℚ) (ss : StopState) : Bool :=
  if ss.stop_mode = "dynamic" then
    match ss.dynamic_stop_price with
    | some d => if side = "LONG" then decide (mark ≤ d) else decide (d ≤ mark)
    | none => false
  else if ss.stop_mode = "base" then
    match ss.base_stop_price with
    | some d => if side = "LONG" then decide (mark ≤ d) else decide (d ≤ mark)
    | none => false
  else false

/-- The per-symbol step of `check_binance_non_bot_positions`
(lines 307-430) for an exchange position with no matching OPEN row: update
the in-memory tracking, build the TempPosition (lines 348-363; its entry
price falls back to the live one when the tracked value is falsy, and it has
no `qty` attribute), evaluate the calculator and the trigger in the same
cycle.  Returns the new tracking entry, the computed stop state, and the
trigger decision. -/
def non_bot_step (cfg : GlobalConfig) (prior : Option NonBotTracked)
    (tc_override th_override bs_override : Option ℚ) (side : String)
    (entry_price mark_price position_amt unrealized_pnl leverage : ℚ) :
    NonBotTracked × StopState × Bool :=
  let tracked := non_bot_tracking_update prior side entry_price mark_price
  let temp_entry : ℚ :=
    match tracked.entry_price with
    | some te => if te = 0 then entry_price else te
    | none => entry_price
  let temp : PositionSnapshot :=
    { entry_price := temp_entry, highest_price := tracked.highest_price,
      side := side, trail_callback := tc_override,
      dyn_profit_threshold_pct := th_override,
      base_stop_loss_pct := bs_override, qty := none }
  let pnl := non_bot_pnl_pct entry_price position_amt unrealized_pnl leverage
  let ss := compute_stop_state cfg temp mark_price pnl (some leverage)
    (some |position_amt|)
  (tracked, ss, stop_triggered side mark_price ss)

/-- PortfolioTrailingConfig row (models.py / main.py lines 501-508). -/
structure PortfolioTrailingConfig where
  enabled : Bool
  target_pnl : Option ℚ
  lock_ratio : Option ℚ
deriving Repr, DecidableEq

/-- One live exchange position as consumed by the portfolio controller. -/
structure ExchangePosition where
  symbol : String
  position_amt : ℚ
  unrealized_pnl : ℚ
deriving Repr, DecidableEq

/-- A reduce-only market close order emitted by the portfolio controller
(lines 577-593). -/
structure PortfolioCloseOrder where
  symbol : String
  side : String
  qty : ℚ
  reduce_only : Bool
deriving Repr, DecidableEq

/-- Lines 514-529: total unrealized PnL over all nonzero live positions. -/
def portfolio_total_pnl (ps : List ExchangePosition) : ℚ :=
  ps.foldl (fun (acc : ℚ) p =>
    if p.position_amt = 0 then acc else acc + p.unrealized_pnl) 0

/-- Lines 533-540: when the total reaches the target, record or raise the
watermark (only increased, never lowered here). -/
def raised_max (max_pnl_reached : Option ℚ) (total target : ℚ) : Option ℚ :=
  if target ≤ total then
    match max_pnl_reached with
    | none => some total
    | some m => if m < total then some total else some m
  else max_pnl_reached

/-- Lines 562-593: one reduce-only market close per nonzero position with a
non-empty symbol. -/
def force_close_orders (ps : List ExchangePosition) : List PortfolioCloseOrder :=
  (ps.filter (fun p => decide (p.position_amt ≠ 0 ∧ p.symbol ≠ ""))).map
    (fun p =>
      ({ symbol := p.symbol,
         side := if (0 : ℚ) < p.position_amt then "SELL" else "BUY",
         qty := |p.position_amt|, reduce_only := true } : PortfolioCloseOrder))

/-- check_portfolio_trailing_stop (lines 487-619): disabled or target-less
configurations leave the state untouched; otherwise the watermark is raised
when the total reaches the target, and once armed, a total at or below
`max_pnl_reached * lock_ratio` force-closes every live position and resets
the watermark to null.  Returns the new `max_pnl_reached` and the emitted
close orders. -/
def check_portfolio_trailing_stop (cfg : PortfolioTrailingConfig)
    (global_lock_ratio : Option ℚ) (dyn_lock_ratio_default : ℚ)
    (max_pnl_reached : Option ℚ) (ps : List ExchangePosition) :
    Option ℚ × List PortfolioCloseOrder :=
  if ¬ cfg.enabled then (max_pnl_reached, [])
  else
    match cfg.target_pnl with
    | none => (max_pnl_reached, [])
    | some target =>
      let total := portfolio_total_pnl ps
      match raised_max max_pnl_reached total target with
      | none => (none, [])
      | some m =>
        let lock_ratio := cfg.lock_ratio.getD
          (global_lock_ratio.getD dyn_lock_ratio_default)
        let sell_threshold := m * lock_ratio
        if total ≤ sell_threshold then (none, force_close_orders ps)
        else (some m, [])

/-- The close operations of the system, one constructor per site in main.py
that transitions a Position row to CLOSED:
`check_trailing_stop` (lines 1356-1360, 1479-1482), the non-bot branch
(lines 442-463, `exit_reason = mode`), the position-based TradingView signal
handler (lines 2688-2691, 2729-2732, 2799-2802, 2928-2931, 2996-2999), the
manual Binance close (lines 4230-4233, 4252-4263), `manual_close_all`
(lines 5995-5998) and the `close_position` endpoint (lines 6279-6282). -/
inductive CloseSite where
  | trailingStopDynamic
  | trailingStopBase
  | nonBotDynamic
  | nonBotBase
  | tvExit
  | tvRebalance
  | tvReverseToLong
  | tvReverseToShort
  | binanceManualClose
  | manualCloseAll
  | closePositionEndpoint
deriving Repr, DecidableEq

/-- The `exit_reason` string each close site writes (same lines as above). -/
def exit_reason_of : CloseSite → String
  | CloseSite.trailingStopDynamic => "dynamic_stop"
  | CloseSite.trailingStopBase => "base_stop"
  | CloseSite.nonBotDynamic => "dynamic_trailing"
  | CloseSite.nonBotBase => "base_stop"
  | CloseSite.tvExit => "tv_exit"
  | CloseSite.tvRebalance => "tv_rebalance"
  | CloseSite.tvReverseToLong => "tv_reverse_to_long"
  | CloseSite.tvReverseToShort => "tv_reverse_to_short"
  | CloseSite.binanceManualClose => "manual_close"
  | CloseSite.manualCloseAll => "manual_close_all"
  | CloseSite.closePositionEndpoint => "manual_close"

/-- The exit-reason enumeration stated by the specification. -/
def claimed_exit_reasons : List String :=
  ["dynamic_stop", "base_stop", "manual_close", "tv_exit", "rebalance",
   "reverse", "manual_close_all"]

/-- The exit-reason strings the source actually writes. -/
def actual_exit_reasons : List String :=
  ["dynamic_stop", "base_stop", "dynamic_trailing", "manual_close", "tv_exit",
   "tv_rebalance", "tv_reverse_to_long", "tv_reverse_to_short",
   "manual_close_all"]

/-- The row mutation every successful close site performs: status CLOSED, the
resolved exit price (always a concrete number; `get_exit_price_from_order`,
lines 622-712, never returns null) and the site's exit reason. -/
def apply_close (p : PositionRec) (s : CloseSite) (exit_price : ℚ) : PositionRec :=
  { p with status := "CLOSED", exit_price := some exit_price,
           exit_reason := some (exit_reason_of s) }

/-! ### Basic facts about the calculator -/

theorem compute_none_of_entry_nonpos (cfg : GlobalConfig) (p : PositionSnapshot)
    (mark : ℚ) (pnl : Option ℚ) (lev qty : Option ℚ) (h : p.entry_price ≤ 0) :
    compute_stop_state cfg p mark pnl lev qty =
      { stop_mode := "none", base_stop_price := none, dynamic_stop_price := none } := by
  unfold compute_stop_state
  rw [if_pos h]

theorem compute_none_of_bad_side (cfg : GlobalConfig) (p : PositionSnapshot)
    (mark : ℚ) (pnl : Option ℚ) (lev qty : Option ℚ)
    (h : ¬ (p.side = "LONG" ∨ p.side = "SHORT")) :
    compute_stop_state cfg p mark pnl lev qty =
      { stop_mode := "none", base_stop_price := none, dynamic_stop_price := none } := by
  unfold compute_stop_state
  by_cases h0 : p.entry_price ≤ 0
  · rw [if_pos h0]
  · rw [if_neg h0, if_neg h]

theorem compute_eq_for_side (cfg : GlobalConfig) (p : PositionSnapshot)
    (mark : ℚ) (pnl : Option ℚ) (lev qty : Option ℚ)
    (h0 : ¬ p.entry_price ≤ 0) (h1 : p.side = "LONG" ∨ p.side = "SHORT") :
    compute_stop_state cfg p mark pnl lev qty =
      stop_state_for_side cfg p mark pnl lev qty := by
  unfold compute_stop_state
  rw [if_neg h0, if_pos h1]

theorem stop_state_for_side_mode (cfg : GlobalConfig) (p : PositionSnapshot)
    (mark : ℚ) (pnl : Option ℚ) (lev qty : Option ℚ) :
    (stop_state_for_side cfg p mark pnl lev qty).stop_mode =
      (if dyn_flag cfg p mark pnl then "dynamic"
       else if decide (0 < resolved_base_sl_pct cfg p) &&
           (decide (pbbft_calc p.side p.entry_price
               (local_best p.side p.highest_price mark) mark pnl <
             resolved_profit_threshold_pct cfg p) || has_override p) then "base"
       else "none") := rfl

theorem stop_state_for_side_bsp (cfg : GlobalConfig) (p : PositionSnapshot)
    (mark : ℚ) (pnl : Option ℚ) (lev qty : Option ℚ) :
    (stop_state_for_side cfg p mark pnl lev qty).base_stop_price =
      base_stop_price_calc p.side p.entry_price
        (local_best p.side p.highest_price mark) (effective_qty p qty)
        (effective_leverage lev) (resolved_base_sl_pct cfg p) := rfl

theorem stop_state_for_side_dsp (cfg : GlobalConfig) (p : PositionSnapshot)
    (mark : ℚ) (pnl : Option ℚ) (lev qty : Option ℚ) :
    (stop_state_for_side cfg p mark pnl lev qty).dynamic_stop_price =
      (if dyn_flag cfg p mark pnl then
        some (dyn_stop_price_calc p.side p.entry_price
          (local_best p.side p.highest_price mark)
          ((resolved_lock_ratio cfg p).getD 0))
       else none) := rfl

theorem mode_dynamic_iff (cfg : GlobalConfig) (p : PositionSnapshot)
    (mark : ℚ) (pnl : Option ℚ) (lev qty : Option ℚ) :
    (stop_state_for_side cfg p mark pnl lev qty).stop_mode = "dynamic" ↔
      dyn_flag cfg p mark pnl = true := by
  rw [stop_state_for_side_mode]
  cases h : dyn_flag cfg p mark pnl
  · simp only [Bool.false_eq_true, if_false]
    constructor
    · intro hc
      exfalso
      split at hc <;> simp at hc
    · intro hc
      exact absurd hc (by simp)
  · simp

theorem dyn_flag_iff (cfg : GlobalConfig) (p : PositionSnapshot)
    (mark : ℚ) (pnl : Option ℚ) :
    dyn_flag cfg p mark pnl = true ↔
      (effective_trailing_enabled cfg p = true ∧
       (resolved_lock_ratio cfg p).isSome = true ∧
       resolved_profit_threshold_pct cfg p ≤
         pbbft_calc p.side p.entry_price
           (local_best p.side p.highest_price mark) mark pnl) := by
  unfold dyn_flag
  simp [Bool.and_eq_true, and_assoc]

theorem clamp_lock_ratio_mem (o : Option ℚ) (r : ℚ)
    (h : clamp_lock_ratio o = some r) : 0 < r ∧ r ≤ 1 := by
  rcases o with _ | x
  · simp [clamp_lock_ratio] at h
  · simp only [clamp_lock_ratio] at h
    split at h
    · simp at h
    · split at h
      · injection h with h
        subst h
        norm_num
      · injection h with h
        subst h
        constructor
        · linarith [not_le.mp (by assumption : ¬ x ≤ 0)]
        · linarith [not_lt.mp (by assumption : ¬ 1 < x)]

theorem resolved_lock_ratio_mem (cfg : GlobalConfig) (p : PositionSnapshot)
    (r : ℚ) (h : resolved_lock_ratio cfg p = some r) : 0 < r ∧ r ≤ 1 :=
  clamp_lock_ratio_mem _ _ h

theorem resolved_lock_ratio_of_tc_zero (cfg : GlobalConfig) (p : PositionSnapshot)
    (h : p.trail_callback = some 0) : resolved_lock_ratio cfg p = none := by
  unfold resolved_lock_ratio raw_lock_ratio
  rw [h]
  simp [clamp_lock_ratio]

/-- All the resolved configuration values depend only on the side and the
three override fields of the position. -/
theorem resolved_congr (cfg : GlobalConfig) (p₁ p₂ : PositionSnapshot)
    (hside : p₂.side = p₁.side) (htc : p₂.trail_callback = p₁.trail_callback)
    (hth : p₂.dyn_profit_threshold_pct = p₁.dyn_profit_threshold_pct)
    (hbs : p₂.base_stop_loss_pct = p₁.base_stop_loss_pct) :
    resolved_lock_ratio cfg p₂ = resolved_lock_ratio cfg p₁ ∧
    resolved_profit_threshold_pct cfg p₂ = resolved_profit_threshold_pct cfg p₁ ∧
    resolved_base_sl_pct cfg p₂ = resolved_base_sl_pct cfg p₁ ∧
    has_override p₂ = has_override p₁ ∧
    effective_trailing_enabled cfg p₂ = effective_trailing_enabled cfg p₁ := by
  refine ⟨?_, ?_, ?_, ?_, ?_⟩ <;>
    simp only [resolved_lock_ratio, raw_lock_ratio, clamp_lock_ratio,
      resolved_profit_threshold_pct, resolved_base_sl_pct, has_override,
      effective_trailing_enabled, resolved_trailing_enabled, hside, htc, hth, hbs]

/-! ### Monotonicity facts about the threshold percentage -/

theorem pbbft_calc_none (side : String) (entry best mark : ℚ) :
    pbbft_calc side entry best mark none = price_profit_pct side entry best := rfl

theorem price_profit_pct_long (entry best : ℚ) (he : 0 < entry) :
    price_profit_pct "LONG" entry best = (best - entry) / entry * 100 := by
  unfold price_profit_pct
  rw [if_neg (by simp : ¬ ("LONG" : String) = "SHORT"), if_pos he]

theorem price_profit_pct_short (entry best : ℚ) (he : 0 < entry) :
    price_profit_pct "SHORT" entry best = (entry - best) / entry * 100 := by
  unfold price_profit_pct
  rw [if_pos rfl, if_pos he]

theorem price_profit_pct_long_mono (entry b₁ b₂ : ℚ) (he : 0 < entry)
    (hb : b₁ ≤ b₂) :
    price_profit_pct "LONG" entry b₁ ≤ price_profit_pct "LONG" entry b₂ := by
  rw [price_profit_pct_long entry b₁ he, price_profit_pct_long entry b₂ he]
  have h1 : (b₁ - entry) / entry ≤ (b₂ - entry) / entry :=
    (div_le_div_right he).mpr (by linarith)
  nlinarith

theorem price_profit_pct_short_mono (entry b₁ b₂ : ℚ) (he : 0 < entry)
    (hb : b₂ ≤ b₁) :
    price_profit_pct "SHORT" entry b₁ ≤ price_profit_pct "SHORT" entry b₂ := by
  rw [price_profit_pct_short entry b₁ he, price_profit_pct_short entry b₂ he]
  have h1 : (entry - b₁) / entry ≤ (entry - b₂) / entry :=
    (div_le_div_right he).mpr (by linarith)
  nlinarith

theorem pbbft_caller_long (entry best mark q lev : ℚ) (he : 0 < entry)
    (hq : 0 < q) (hlev : 0 < lev) (hm : mark ≠ entry) :
    pbbft_calc "LONG" entry best mark
        (some (caller_unrealized_pnl_pct "LONG" entry mark q lev)) =
      (best - entry) / entry * lev * 100 := by
  have h1 : mark - entry ≠ 0 := sub_ne_zero.mpr hm
  simp only [pbbft_calc, caller_unrealized_pnl_pct]
  rw [if_pos (show mark ≠ entry ∧ 0 < entry from ⟨hm, he⟩)]
  simp only [if_neg (by simp : ¬ ("LONG" : String) = "SHORT"), if_pos h1]
  field_simp
  ring

theorem pbbft_caller_short (entry best mark q lev : ℚ) (he : 0 < entry)
    (hq : 0 < q) (hlev : 0 < lev) (hm : mark ≠ entry) :
    pbbft_calc "SHORT" entry best mark
        (some (caller_unrealized_pnl_pct "SHORT" entry mark q lev)) =
      (entry - best) / entry * lev * 100 := by
  have h1 : entry - mark ≠ 0 := sub_ne_zero.mpr (fun h => hm h.symm)
  simp only [pbbft_calc, caller_unrealized_pnl_pct]
  rw [if_pos (show mark ≠ entry ∧ 0 < entry from ⟨hm, he⟩)]
  simp only [if_pos (rfl : ("SHORT" : String) = "SHORT"), if_pos h1]
  field_simp
  ring

theorem pbbft_caller_at_entry (side : String) (entry best q lev : ℚ) :
    pbbft_calc side entry best entry
        (some (caller_unrealized_pnl_pct side entry entry q lev)) = 0 := by
  simp only [pbbft_calc, caller_unrealized_pnl_pct]
  rw [if_neg (show ¬ ((entry : ℚ) ≠ entry ∧ 0 < entry) by simp)]
  split <;> simp

theorem local_best_long_ge_mark (h : Option ℚ) (mark : ℚ) :
    mark ≤ local_best "LONG" h mark := by
  unfold local_best
  rw [if_neg (by simp : ¬ ("LONG" : String) = "SHORT")]
  rcases h with _ | b
  · simp
  · simp only [Option.getD_some]
    by_cases hb : mark > b
    · rw [if_pos hb]
    · rw [if_neg hb]
      exact le_of_not_lt hb

theorem local_best_short_le_mark (h : Option ℚ) (mark : ℚ) :
    local_best "SHORT" h mark ≤ mark := by
  unfold local_best
  rw [if_pos rfl]
  rcases h with _ | b
  · simp
  · simp only [Option.getD_some]
    by_cases hb : mark < b
    · rw [if_pos hb]
    · rw [if_neg hb]
      exact le_of_not_lt hb

theorem base_stop_price_calc_pos (side : String) (e b q lv bs : ℚ)
    (h : 0 < bs ∧ 0 < e ∧ 0 < q ∧ 0 < lv) :
    base_stop_price_calc side e b q lv bs =
      some (if side = "SHORT" then b + e * q / lv * bs / 100 / q
            else b - e * q / lv * bs / 100 / q) := by
  unfold base_stop_price_calc
  rw [if_pos h]
  exact (apply_ite some _ _ _).symm

theorem base_stop_price_calc_of_not (side : String) (e b q lv bs : ℚ)
    (h : ¬ (0 < bs ∧ 0 < e ∧ 0 < q ∧ 0 < lv)) :
    base_stop_price_calc side e b q lv bs = none := by
  unfold base_stop_price_calc
  rw [if_neg h]

/-! ### Concrete sample values used by the witnesses -/

/-- A configuration with trailing enabled, 1% profit threshold, lock ratio
one half and 3% base stop on both sides. -/
def sample_config : GlobalConfig :=
  { trailing_enabled := some true,
    long_config :=
      { profit_threshold_pct := some 1, lock_ratio := some (1/2),
        base_sl_pct := some 3 },
    short_config :=
      { profit_threshold_pct := some 1, lock_ratio := some (1/2),
        base_sl_pct := some 3 },
    dynTrailingEnabled := true, dynProfitThresholdPct := 1,
    dynLockRatioDefault := 1/2, dynBaseSlPct := 3 }

/-- A LONG position entered at 100 whose stored extreme is 102. -/
def sample_long : PositionSnapshot :=
  { entry_price := 100, highest_price := some 102, side := "LONG",
    trail_callback := none, dyn_profit_threshold_pct := none,
    base_stop_loss_pct := none, qty := some 1 }

/-! ### The claims -/

/-- C3: in `check_trailing_stop`, once the stored extreme is non-null, one
worker-tick update only moves it in the favorable direction: for LONG the new
value is the mark price exactly when the mark price is strictly greater
(hence never decreases), for SHORT exactly when it is strictly lower (hence
never increases); in both cases the evaluation continues past the update. -/
theorem C3_theorem (b m : ℚ) :
    ((check_trailing_stop_extreme_update "LONG" (some b) m).fst =
        some (if m > b then m else b) ∧
      b ≤ (if m > b then m else b) ∧
      (check_trailing_stop_extreme_update "LONG" (some b) m).snd = true) ∧
    ((check_trailing_stop_extreme_update "SHORT" (some b) m).fst =
        some (if m < b then m else b) ∧
      (if m < b then m else b) ≤ b ∧
      (check_trailing_stop_extreme_update "SHORT" (some b) m).snd = true) := by
  refine ⟨⟨rfl, ?_, rfl⟩, ⟨rfl, ?_, rfl⟩⟩
  · by_cases hb : m > b
    · rw [if_pos hb]
      exact le_of_lt hb
    · rw [if_neg hb]
  · by_cases hb : m < b
    · rw [if_pos hb]
      exact le_of_lt hb
    · rw [if_neg hb]

/-- C9: `compute_stop_state` is total on the embedded domain; a non-positive
entry price yields mode none with both stop prices null, and an unrecognized
side yields the same all-null result. -/
theorem C9_theorem (cfg : GlobalConfig) (p : PositionSnapshot) (mark : ℚ)
    (pnl : Option ℚ) (lev qty : Option ℚ) :
    (p.entry_price ≤ 0 →
      compute_stop_state cfg p mark pnl lev qty =
        { stop_mode := "none", base_stop_price := none,
          dynamic_stop_price := none }) ∧
    (¬ (p.side = "LONG" ∨ p.side = "SHORT") →
      compute_stop_state cfg p mark pnl lev qty =
        { stop_mode := "none", base_stop_price := none,
          dynamic_stop_price := none }) :=
  ⟨compute_none_of_entry_nonpos cfg p mark pnl lev qty,
   compute_none_of_bad_side cfg p mark pnl lev qty⟩

theorem C9_witness :
    compute_stop_state sample_config
      { entry_price := -5, highest_price := none, side := "LONG",
        trail_callback := none, dyn_profit_threshold_pct := none,
        base_stop_loss_pct := none, qty := none } 100 none none none =
      { stop_mode := "none", base_stop_price := none,
        dynamic_stop_price := none } ∧
    compute_stop_state sample_config
      { entry_price := 100, highest_price := none, side := "BOTH",
        trail_callback := none, dyn_profit_threshold_pct := none,
        base_stop_loss_pct := none, qty := none } 100 none none none =
      { stop_mode := "none", base_stop_price := none,
        dynamic_stop_price := none } :=
  ⟨(C9_theorem sample_config
      { entry_price := -5, highest_price := none, side := "LONG",
        trail_callback := none, dyn_profit_threshold_pct := none,
        base_stop_loss_pct := none, qty := none } 100 none none none).1
      (by norm_num),
   (C9_theorem sample_config
      { entry_price := 100, highest_price := none, side := "BOTH",
        trail_callback := none, dyn_profit_threshold_pct := none,
        base_stop_loss_pct := none, qty := none } 100 none none none).2
      (by simp)⟩

/-- C8: a `trail_callback` override of exactly 0 disables dynamic mode (the
returned mode is base or none for every mark price, extreme, profit
percentage, leverage and quantity), and every effective lock ratio produced
by the resolution code is at most 1 (values above 1 are clamped). -/
theorem C8_theorem (cfg : GlobalConfig) (p : PositionSnapshot) (mark : ℚ)
    (pnl : Option ℚ) (lev qty : Option ℚ)
    (htc : p.trail_callback = some 0) :
    ((compute_stop_state cfg p mark pnl lev qty).stop_mode = "base" ∨
     (compute_stop_state cfg p mark pnl lev qty).stop_mode = "none") ∧
    (∀ (cfg2 : GlobalConfig) (p2 : PositionSnapshot) (r : ℚ),
      resolved_lock_ratio cfg2 p2 = some r → r ≤ 1) := by
  constructor
  · by_cases h0 : p.entry_price ≤ 0
    · rw [compute_none_of_entry_nonpos cfg p mark pnl lev qty h0]
      right
      rfl
    · by_cases h1 : p.side = "LONG" ∨ p.side = "SHORT"
      · rw [compute_eq_for_side cfg p mark pnl lev qty h0 h1,
          stop_state_for_side_mode]
        have hd : dyn_flag cfg p mark pnl = false := by
          unfold dyn_flag
          rw [resolved_lock_ratio_of_tc_zero cfg p htc]
          simp
        rw [hd]
        simp only [Bool.false_eq_true, if_false]
        split
        · left
          rfl
        · right
          rfl
      · rw [compute_none_of_bad_side cfg p mark pnl lev qty h1]
        right
        rfl
  · intro cfg2 p2 r h
    exact (resolved_lock_ratio_mem cfg2 p2 r h).2

theorem C8_witness :
    ((compute_stop_state sample_config
        { sample_long with trail_callback := some 0 } 102 (some 40) (some 20)
        (some 1)).stop_mode = "base" ∨
     (compute_stop_state sample_config
        { sample_long with trail_callback := some 0 } 102 (some 40) (some 20)
        (some 1)).stop_mode = "none") ∧
    (∀ (cfg2 : GlobalConfig) (p2 : PositionSnapshot) (r : ℚ),
      resolved_lock_ratio cfg2 p2 = some r → r ≤ 1) :=
  C8_theorem sample_config { sample_long with trail_callback := some 0 }
    102 (some 40) (some 20) (some 1) rfl

/-- C7: for a LONG or SHORT position, the returned base stop price equals
`best - ((entry * qty / leverage) * base_sl_pct / 100) / qty` (plus instead
of minus for SHORT, with `best` the locally updated extreme) exactly when the
entry price, effective quantity, effective leverage and effective base
stop-loss percentage are all positive; otherwise it is null. -/
theorem C7_theorem (cfg : GlobalConfig) (p : PositionSnapshot) (mark : ℚ)
    (pnl : Option ℚ) (lev qty : Option ℚ)
    (hside : p.side = "LONG" ∨ p.side = "SHORT") :
    (0 < p.entry_price → 0 < effective_qty p qty → 0 < effective_leverage lev →
      0 < resolved_base_sl_pct cfg p →
      (compute_stop_state cfg p mark pnl lev qty).base_stop_price =
        some (if p.side = "SHORT" then
                local_best p.side p.highest_price mark +
                  p.entry_price * effective_qty p qty / effective_leverage lev *
                    resolved_base_sl_pct cfg p / 100 / effective_qty p qty
              else
                local_best p.side p.highest_price mark -
                  p.entry_price * effective_qty p qty / effective_leverage lev *
                    resolved_base_sl_pct cfg p / 100 / effective_qty p qty)) ∧
    (¬ (0 < p.entry_price ∧ 0 < effective_qty p qty ∧
        0 < effective_leverage lev ∧ 0 < resolved_base_sl_pct cfg p) →
      (compute_stop_state cfg p mark pnl lev qty).base_stop_price = none) := by
  constructor
  · intro he hq hl hb
    rw [compute_eq_for_side cfg p mark pnl lev qty (not_le.mpr he) hside,
      stop_state_for_side_bsp]
    exact base_stop_price_calc_pos _ _ _ _ _ _ ⟨hb, he, hq, hl⟩
  · intro hn
    by_cases h0 : p.entry_price ≤ 0
    · rw [compute_none_of_entry_nonpos cfg p mark pnl lev qty h0]
    · rw [compute_eq_for_side cfg p mark pnl lev qty h0 hside,
        stop_state_for_side_bsp]
      apply base_stop_price_calc_of_not
      intro hc
      exact hn ⟨hc.2.1, hc.2.2.1, hc.2.2.2, hc.1⟩

theorem C7_witness :
    (compute_stop_state sample_config sample_long 102 none (some 20)
        (some 1)).base_stop_price = some (2037/20) ∧
    (compute_stop_state sample_config { sample_long with qty := none } 102
        none (some 20) none).base_stop_price = none := by
  constructor
  · have h := (C7_theorem sample_config sample_long 102 none (some 20)
      (some 1) (Or.inl rfl)).1
      (by norm_num [sample_long])
      (by norm_num [effective_qty, sample_long])
      (by norm_num [effective_leverage])
      (by norm_num [resolved_base_sl_pct, sample_config, sample_long,
        GlobalConfig.get_config_for_side])
    rw [h]
    norm_num [sample_long, local_best, effective_qty, effective_leverage,
      resolved_base_sl_pct, sample_config, GlobalConfig.get_config_for_side]
    decide
  · have h := (C7_theorem sample_config { sample_long with qty := none } 102
      none (some 20) none (Or.inl rfl)).2
      (by norm_num [effective_qty, sample_long])
    exact h

/-- C5: when the exchange close order throws, both the worker trigger path
and the manual close endpoint move the position to ERROR before re-raising
(as a 500 for the endpoint); the position is never left OPEN. -/
theorem C5_theorem (p : PositionRec) (mode : String)
    (hopen : p.status = "OPEN") :
    (close_triggered_position p mode (Except.error ())).status = "ERROR" ∧
    (close_triggered_position p mode (Except.error ())).status ≠ "OPEN" ∧
    (close_position (some p) (Except.error ())).fst =
      some { p with status := "ERROR" } ∧
    (close_position (some p) (Except.error ())).snd =
      CloseResponse.httpError 500 := by
  refine ⟨rfl, by simp [close_triggered_position], ?_, ?_⟩ <;>
    · simp only [close_position]
      rw [if_neg (by simp [hopen])]

theorem C5_witness :
    (close_triggered_position
        { status := "OPEN", exit_price := none, exit_reason := none }
        "dynamic_trailing" (Except.error ())).status = "ERROR" ∧
    (close_triggered_position
        { status := "OPEN", exit_price := none, exit_reason := none }
        "dynamic_trailing" (Except.error ())).status ≠ "OPEN" ∧
    (close_position
        (some { status := "OPEN", exit_price := none, exit_reason := none })
        (Except.error ())).fst =
      some { status := "ERROR", exit_price := none, exit_reason := none } ∧
    (close_position
        (some { status := "OPEN", exit_price := none, exit_reason := none })
        (Except.error ())).snd = CloseResponse.httpError 500 :=
  C5_theorem { status := "OPEN", exit_price := none, exit_reason := none }
    "dynamic_trailing" rfl

/-- C4 counterexample: the non-bot branch closes a dynamically stopped
position with `exit_reason = "dynamic_trailing"` (main.py line 452 writes the
worker mode string directly), which is outside the enumeration the
specification states; the rebalance and reverse closes also use
"tv_rebalance" and "tv_reverse_to_long", not "rebalance" and "reverse". -/
theorem C4_counterexample :
    exit_reason_of CloseSite.nonBotDynamic = "dynamic_trailing" ∧
    "dynamic_trailing" ∉ claimed_exit_reasons ∧
    exit_reason_of CloseSite.tvRebalance ∉ claimed_exit_reasons ∧
    exit_reason_of CloseSite.tvReverseToLong ∉ claimed_exit_reasons := by
  refine ⟨rfl, ?_, ?_, ?_⟩ <;> decide

/-- C4 (amended): every close operation sets status CLOSED with a non-null
exit price and an exit reason in the enumeration actually written by the
source — dynamic_stop, base_stop, dynamic_trailing, manual_close, tv_exit,
tv_rebalance, tv_reverse_to_long, tv_reverse_to_short, manual_close_all —
and the close endpoint rejects a position whose status is not OPEN with a
400 error, leaving the row untouched. -/
theorem C4_theorem (p : PositionRec) (s : CloseSite) (px : ℚ)
    (r : Except Unit ℚ) :
    ((apply_close p s px).status = "CLOSED" ∧
     (apply_close p s px).exit_price = some px ∧
     (apply_close p s px).exit_reason = some (exit_reason_of s) ∧
     exit_reason_of s ∈ actual_exit_reasons) ∧
    (p.status ≠ "OPEN" →
      close_position (some p) r = (some p, CloseResponse.httpError 400)) := by
  refine ⟨⟨rfl, rfl, rfl, ?_⟩, ?_⟩
  · cases s <;> decide
  · intro h
    simp only [close_position]
    rw [if_pos h]

theorem C4_witness :
    ((apply_close { status := "CLOSED", exit_price := none, exit_reason := none }
        CloseSite.nonBotDynamic 5).status = "CLOSED" ∧
     (apply_close { status := "CLOSED", exit_price := none, exit_reason := none }
        CloseSite.nonBotDynamic 5).exit_price = some 5 ∧
     (apply_close { status := "CLOSED", exit_price := none, exit_reason := none }
        CloseSite.nonBotDynamic 5).exit_reason =
       some (exit_reason_of CloseSite.nonBotDynamic) ∧
     exit_reason_of CloseSite.nonBotDynamic ∈ actual_exit_reasons) ∧
    close_position
        (some { status := "CLOSED", exit_price := none, exit_reason := none })
        (Except.ok 7) =
      (some { status := "CLOSED", exit_price := none, exit_reason := none },
       CloseResponse.httpError 400) :=
  ⟨(C4_theorem { status := "CLOSED", exit_price := none, exit_reason := none }
      CloseSite.nonBotDynamic 5 (Except.ok 7)).1,
   (C4_theorem { status := "CLOSED", exit_price := none, exit_reason := none }
      CloseSite.nonBotDynamic 5 (Except.ok 7)).2 (by decide)⟩

/-- The only way `compute_stop_state` returns a dynamic stop price: the
position is in the LONG or SHORT branch with a positive entry, the dynamic
flag is set, and the price is the trailing formula over the local extreme. -/
theorem dsp_some_elim (cfg : GlobalConfig) (p : PositionSnapshot) (mark : ℚ)
    (pnl : Option ℚ) (lev qty : Option ℚ) (d : ℚ)
    (hd : (compute_stop_state cfg p mark pnl lev qty).dynamic_stop_price =
      some d) :
    ¬ p.entry_price ≤ 0 ∧ (p.side = "LONG" ∨ p.side = "SHORT") ∧
    dyn_flag cfg p mark pnl = true ∧
    d = dyn_stop_price_calc p.side p.entry_price
          (local_best p.side p.highest_price mark)
          ((resolved_lock_ratio cfg p).getD 0) := by
  by_cases h0 : p.entry_price ≤ 0
  · rw [compute_none_of_entry_nonpos cfg p mark pnl lev qty h0] at hd
    exact absurd hd (by simp)
  by_cases h1 : p.side = "LONG" ∨ p.side = "SHORT"
  · rw [compute_eq_for_side cfg p mark pnl lev qty h0 h1,
      stop_state_for_side_dsp] at hd
    by_cases hdyn : dyn_flag cfg p mark pnl = true
    · rw [if_pos hdyn] at hd
      injection hd with hd
      exact ⟨h0, h1, hdyn, hd.symm⟩
    · rw [if_neg hdyn] at hd
      exact absurd hd (by simp)
  · rw [compute_none_of_bad_side cfg p mark pnl lev qty h1] at hd
    exact absurd hd (by simp)

/-- C2: whenever `compute_stop_state` returns a dynamic stop price for a LONG
position it equals `entry + (best - entry) * lock_ratio` with `best` the
local extreme, and across two evaluations with the same entry and the same
effective lock ratio a non-decreased extreme yields a non-decreased dynamic
stop price; symmetrically for SHORT
(`entry - (entry - best) * lock_ratio`, non-increasing). -/
theorem C2_theorem (cfg : GlobalConfig) (p₁ p₂ : PositionSnapshot)
    (m₁ m₂ : ℚ) (pnl₁ pnl₂ : Option ℚ) (lev₁ lev₂ qty₁ qty₂ : Option ℚ)
    (d₁ d₂ lr : ℚ)
    (hentry : p₂.entry_price = p₁.entry_price)
    (hlr₁ : resolved_lock_ratio cfg p₁ = some lr)
    (hlr₂ : resolved_lock_ratio cfg p₂ = some lr)
    (hd₁ : (compute_stop_state cfg p₁ m₁ pnl₁ lev₁ qty₁).dynamic_stop_price =
      some d₁)
    (hd₂ : (compute_stop_state cfg p₂ m₂ pnl₂ lev₂ qty₂).dynamic_stop_price =
      some d₂) :
    (p₁.side = "LONG" → p₂.side = "LONG" →
      d₁ = p₁.entry_price +
        (local_best "LONG" p₁.highest_price m₁ - p₁.entry_price) * lr ∧
      (local_best "LONG" p₁.highest_price m₁ ≤
          local_best "LONG" p₂.highest_price m₂ → d₁ ≤ d₂)) ∧
    (p₁.side = "SHORT" → p₂.side = "SHORT" →
      d₁ = p₁.entry_price -
        (p₁.entry_price - local_best "SHORT" p₁.highest_price m₁) * lr ∧
      (local_best "SHORT" p₂.highest_price m₂ ≤
          local_best "SHORT" p₁.highest_price m₁ → d₂ ≤ d₁)) := by
  obtain ⟨-, -, -, he₁⟩ := dsp_some_elim cfg p₁ m₁ pnl₁ lev₁ qty₁ d₁ hd₁
  obtain ⟨-, -, -, he₂⟩ := dsp_some_elim cfg p₂ m₂ pnl₂ lev₂ qty₂ d₂ hd₂
  rw [hlr₁, Option.getD_some] at he₁
  rw [hlr₂, Option.getD_some] at he₂
  have hlrpos : 0 < lr := (resolved_lock_ratio_mem cfg p₁ lr hlr₁).1
  constructor
  · intro hs₁ hs₂
    rw [hs₁] at he₁
    rw [hs₂, hentry] at he₂
    unfold dyn_stop_price_calc at he₁ he₂
    rw [if_neg (by simp : ¬ ("LONG" : String) = "SHORT")] at he₁ he₂
    refine ⟨he₁, ?_⟩
    intro hb
    rw [he₁, he₂]
    nlinarith
  · intro hs₁ hs₂
    rw [hs₁] at he₁
    rw [hs₂, hentry] at he₂
    unfold dyn_stop_price_calc at he₁ he₂
    rw [if_pos rfl] at he₁ he₂
    refine ⟨he₁, ?_⟩
    intro hb
    rw [he₁, he₂]
    nlinarith

theorem C2_witness :
    (101 : ℚ) = sample_long.entry_price +
      (local_best "LONG" sample_long.highest_price 102 -
        sample_long.entry_price) * (1/2) ∧
    (local_best "LONG" sample_long.highest_price 102 ≤
        local_best "LONG"
          ({ sample_long with highest_price := some 104 } :
            PositionSnapshot).highest_price 104 →
      (101 : ℚ) ≤ 102) := by
  have hlr1 : resolved_lock_ratio sample_config sample_long = some (1/2) := by
    norm_num [resolved_lock_ratio, raw_lock_ratio, clamp_lock_ratio,
      sample_config, sample_long, GlobalConfig.get_config_for_side]
  have hlr2 : resolved_lock_ratio sample_config
      { sample_long with highest_price := some 104 } = some (1/2) := by
    norm_num [resolved_lock_ratio, raw_lock_ratio, clamp_lock_ratio,
      sample_config, sample_long, GlobalConfig.get_config_for_side]
  have hd1 : (compute_stop_state sample_config sample_long 102 none (some 20)
      (some 1)).dynamic_stop_price = some 101 := by
    norm_num [compute_stop_state, stop_state_for_side, dyn_flag,
      effective_trailing_enabled, resolved_trailing_enabled, has_override,
      resolved_lock_ratio, raw_lock_ratio, clamp_lock_ratio,
      resolved_profit_threshold_pct, resolved_base_sl_pct, pbbft_calc,
      price_profit_pct, local_best, base_stop_price_calc, dyn_stop_price_calc,
      effective_qty, effective_leverage, GlobalConfig.get_config_for_side,
      sample_config, sample_long]
    intro hcon
    rw [if_neg (by decide : ¬ ("LONG" : String) = "SHORT")] at hcon
    norm_num at hcon
  have hd2 : (compute_stop_state sample_config
      { sample_long with highest_price := some 104 } 104 none (some 20)
      (some 1)).dynamic_stop_price = some 102 := by
    norm_num [compute_stop_state, stop_state_for_side, dyn_flag,
      effective_trailing_enabled, resolved_trailing_enabled, has_override,
      resolved_lock_ratio, raw_lock_ratio, clamp_lock_ratio,
      resolved_profit_threshold_pct, resolved_base_sl_pct, pbbft_calc,
      price_profit_pct, local_best, base_stop_price_calc, dyn_stop_price_calc,
      effective_qty, effective_leverage, GlobalConfig.get_config_for_side,
      sample_config, sample_long]
    intro hcon
    rw [if_neg (by decide : ¬ ("LONG" : String) = "SHORT")] at hcon
    norm_num at hcon
  exact (C2_theorem sample_config sample_long
    { sample_long with highest_price := some 104 } 102 104 none none
    (some 20) (some 20) (some 1) (some 1) 101 102 (1/2)
    rfl hlr1 hlr2 hd1 hd2).1 rfl rfl

/-- C1 counterexample: with the sample configuration (threshold 1%, lock
ratio one half, base stop 3%), the LONG position entered at 100 with stored
extreme 102 is in dynamic mode at mark 102 with the caller-consistent
unrealized PnL of 40% (leverage 20); at a later tick the mark retraces to
exactly the entry price 100, the stored extreme is unchanged (so the extreme
evolved monotonically), the caller-consistent unrealized PnL is 0, and the
calculator returns mode "base" — dynamic mode was lost. -/
theorem C1_counterexample :
    caller_unrealized_pnl_pct "LONG" 100 102 1 20 = 40 ∧
    caller_unrealized_pnl_pct "LONG" 100 100 1 20 = 0 ∧
    (compute_stop_state sample_config sample_long 102 (some 40) (some 20)
      (some 1)).stop_mode = "dynamic" ∧
    (compute_stop_state sample_config sample_long 100 (some 0) (some 20)
      (some 1)).stop_mode = "base" := by
  refine ⟨?_, ?_, ?_, ?_⟩
  · norm_num [caller_unrealized_pnl_pct]
    decide
  · norm_num [caller_unrealized_pnl_pct]
  · norm_num [compute_stop_state, stop_state_for_side, dyn_flag,
      effective_trailing_enabled, resolved_trailing_enabled, has_override,
      resolved_lock_ratio, raw_lock_ratio, clamp_lock_ratio,
      resolved_profit_threshold_pct, resolved_base_sl_pct, pbbft_calc,
      price_profit_pct, local_best, base_stop_price_calc, dyn_stop_price_calc,
      effective_qty, effective_leverage, GlobalConfig.get_config_for_side,
      sample_config, sample_long]
  · norm_num [compute_stop_state, stop_state_for_side, dyn_flag,
      effective_trailing_enabled, resolved_trailing_enabled, has_override,
      resolved_lock_ratio, raw_lock_ratio, clamp_lock_ratio,
      resolved_profit_threshold_pct, resolved_base_sl_pct, pbbft_calc,
      price_profit_pct, local_best, base_stop_price_calc, dyn_stop_price_calc,
      effective_qty, effective_leverage, GlobalConfig.get_config_for_side,
      sample_config, sample_long]

/-- Persistence core: between two evaluations of positions sharing side,
entry price and override fields, if the threshold percentage does not
decrease then dynamic mode persists. -/
theorem dyn_persist (cfg : GlobalConfig) (p₁ p₂ : PositionSnapshot)
    (m₁ m₂ : ℚ) (pnl₁ pnl₂ : Option ℚ) (levA qtyA levB qtyB : Option ℚ)
    (hside₂ : p₂.side = p₁.side)
    (hentry : p₂.entry_price = p₁.entry_price)
    (hpos : 0 < p₁.entry_price)
    (htc : p₂.trail_callback = p₁.trail_callback)
    (hth : p₂.dyn_profit_threshold_pct = p₁.dyn_profit_threshold_pct)
    (hbs : p₂.base_stop_loss_pct = p₁.base_stop_loss_pct)
    (hpb : pbbft_calc p₁.side p₁.entry_price
        (local_best p₁.side p₁.highest_price m₁) m₁ pnl₁ ≤
      pbbft_calc p₂.side p₂.entry_price
        (local_best p₂.side p₂.highest_price m₂) m₂ pnl₂)
    (h₁ : (compute_stop_state cfg p₁ m₁ pnl₁ levA qtyA).stop_mode =
      "dynamic") :
    (compute_stop_state cfg p₂ m₂ pnl₂ levB qtyB).stop_mode = "dynamic" := by
  have he₁ : ¬ p₁.entry_price ≤ 0 := not_le.mpr hpos
  have he₂ : ¬ p₂.entry_price ≤ 0 := by
    rw [hentry]
    exact he₁
  by_cases hs : p₁.side = "LONG" ∨ p₁.side = "SHORT"
  · have hs₂ : p₂.side = "LONG" ∨ p₂.side = "SHORT" := by
      rw [hside₂]
      exact hs
    rw [compute_eq_for_side cfg p₁ m₁ pnl₁ levA qtyA he₁ hs,
      mode_dynamic_iff, dyn_flag_iff] at h₁
    obtain ⟨hen, hlock, hθ⟩ := h₁
    obtain ⟨hlreq, hthreq, hbseq, hoveq, heneq⟩ :=
      resolved_congr cfg p₁ p₂ hside₂ htc hth hbs
    rw [compute_eq_for_side cfg p₂ m₂ pnl₂ levB qtyB he₂ hs₂,
      mode_dynamic_iff, dyn_flag_iff]
    refine ⟨heneq.trans hen, ?_, ?_⟩
    · rw [hlreq]
      exact hlock
    · rw [hthreq]
      exact le_trans hθ hpb
  · rw [compute_none_of_bad_side cfg p₁ m₁ pnl₁ levA qtyA hs] at h₁
    exact absurd h₁ (by simp)

/-- C1 (amended): for a position that stays OPEN with unchanged entry price,
side and override fields, and whose extreme evolves monotonically, a
"dynamic" result persists at every later evaluation (a) unconditionally on
the price-percentage path (`unrealized_pnl_pct` absent), and (b) on the
ratio-scaling path with the caller-computed margin PnL percentage whenever
the later mark price differs from the entry price; the counterexample shows
case (b) genuinely fails when the mark returns exactly to the entry. -/
theorem C1_theorem (cfg : GlobalConfig) (p₁ p₂ : PositionSnapshot)
    (m₁ m₂ lev q₁ q₂ : ℚ) (levA qtyA levB qtyB : Option ℚ)
    (hside₂ : p₂.side = p₁.side)
    (hentry : p₂.entry_price = p₁.entry_price)
    (hpos : 0 < p₁.entry_price)
    (hlev : 0 < lev) (hq₁ : 0 < q₁) (hq₂ : 0 < q₂)
    (htc : p₂.trail_callback = p₁.trail_callback)
    (hth : p₂.dyn_profit_threshold_pct = p₁.dyn_profit_threshold_pct)
    (hbs : p₂.base_stop_loss_pct = p₁.base_stop_loss_pct) :
    (p₁.side = "LONG" →
      local_best "LONG" p₁.highest_price m₁ ≤
        local_best "LONG" p₂.highest_price m₂ →
      (((compute_stop_state cfg p₁ m₁ none levA qtyA).stop_mode = "dynamic" →
        (compute_stop_state cfg p₂ m₂ none levB qtyB).stop_mode =
          "dynamic") ∧
       (m₂ ≠ p₂.entry_price →
        (compute_stop_state cfg p₁ m₁
          (some (caller_unrealized_pnl_pct "LONG" p₁.entry_price m₁ q₁ lev))
          (some lev) (some q₁)).stop_mode = "dynamic" →
        (compute_stop_state cfg p₂ m₂
          (some (caller_unrealized_pnl_pct "LONG" p₂.entry_price m₂ q₂ lev))
          (some lev) (some q₂)).stop_mode = "dynamic"))) ∧
    (p₁.side = "SHORT" →
      local_best "SHORT" p₂.highest_price m₂ ≤
        local_best "SHORT" p₁.highest_price m₁ →
      (((compute_stop_state cfg p₁ m₁ none levA qtyA).stop_mode = "dynamic" →
        (compute_stop_state cfg p₂ m₂ none levB qtyB).stop_mode =
          "dynamic") ∧
       (m₂ ≠ p₂.entry_price →
        (compute_stop_state cfg p₁ m₁
          (some (caller_unrealized_pnl_pct "SHORT" p₁.entry_price m₁ q₁ lev))
          (some lev) (some q₁)).stop_mode = "dynamic" →
        (compute_stop_state cfg p₂ m₂
          (some (caller_unrealized_pnl_pct "SHORT" p₂.entry_price m₂ q₂ lev))
          (some lev) (some q₂)).stop_mode = "dynamic"))) := by
  constructor
  · intro hs hmono
    have hs₂ : p₂.side = "LONG" := hside₂.trans hs
    constructor
    · intro h₁
      refine dyn_persist cfg p₁ p₂ m₁ m₂ none none levA qtyA levB qtyB
        hside₂ hentry hpos htc hth hbs ?_ h₁
      rw [hs, hs₂, hentry, pbbft_calc_none, pbbft_calc_none]
      exact price_profit_pct_long_mono _ _ _ hpos hmono
    · intro hm₂ h₁
      rw [hentry] at hm₂
      refine dyn_persist cfg p₁ p₂ m₁ m₂ _ _ (some lev) (some q₁)
        (some lev) (some q₂) hside₂ hentry hpos htc hth hbs ?_ h₁
      rw [hs, hs₂, hentry]
      rw [pbbft_caller_long p₁.entry_price
        (local_best "LONG" p₂.highest_price m₂) m₂ q₂ lev hpos hq₂ hlev hm₂]
      by_cases hm₁ : m₁ = p₁.entry_price
      · rw [hm₁, pbbft_caller_at_entry]
        have hb : p₁.entry_price ≤ local_best "LONG" p₂.highest_price m₂ := by
          have h1 := local_best_long_ge_mark p₁.highest_price m₁
          rw [hm₁] at h1 hmono
          linarith
        have h2 : (0:ℚ) ≤ (local_best "LONG" p₂.highest_price m₂ -
            p₁.entry_price) / p₁.entry_price * lev :=
          mul_nonneg (div_nonneg (by linarith) hpos.le) hlev.le
        nlinarith
      · rw [pbbft_caller_long p₁.entry_price
          (local_best "LONG" p₁.highest_price m₁) m₁ q₁ lev hpos hq₁ hlev hm₁]
        have h1 : (local_best "LONG" p₁.highest_price m₁ - p₁.entry_price) /
            p₁.entry_price ≤
            (local_best "LONG" p₂.highest_price m₂ - p₁.entry_price) /
            p₁.entry_price :=
          (div_le_div_right hpos).mpr (by linarith)
        nlinarith [mul_le_mul_of_nonneg_right h1 hlev.le]
  · intro hs hmono
    have hs₂ : p₂.side = "SHORT" := hside₂.trans hs
    constructor
    · intro h₁
      refine dyn_persist cfg p₁ p₂ m₁ m₂ none none levA qtyA levB qtyB
        hside₂ hentry hpos htc hth hbs ?_ h₁
      rw [hs, hs₂, hentry, pbbft_calc_none, pbbft_calc_none]
      exact price_profit_pct_short_mono _ _ _ hpos hmono
    · intro hm₂ h₁
      rw [hentry] at hm₂
      refine dyn_persist cfg p₁ p₂ m₁ m₂ _ _ (some lev) (some q₁)
        (some lev) (some q₂) hside₂ hentry hpos htc hth hbs ?_ h₁
      rw [hs, hs₂, hentry]
      rw [pbbft_caller_short p₁.entry_price
        (local_best "SHORT" p₂.highest_price m₂) m₂ q₂ lev hpos hq₂ hlev hm₂]
      by_cases hm₁ : m₁ = p₁.entry_price
      · rw [hm₁, pbbft_caller_at_entry]
        have hb : local_best "SHORT" p₂.highest_price m₂ ≤ p₁.entry_price := by
          have h1 := local_best_short_le_mark p₁.highest_price m₁
          rw [hm₁] at h1 hmono
          linarith
        have h2 : (0:ℚ) ≤ (p₁.entry_price -
            local_best "SHORT" p₂.highest_price m₂) / p₁.entry_price * lev :=
          mul_nonneg (div_nonneg (by linarith) hpos.le) hlev.le
        nlinarith
      · rw [pbbft_caller_short p₁.entry_price
          (local_best "SHORT" p₁.highest_price m₁) m₁ q₁ lev hpos hq₁ hlev hm₁]
        have h1 : (p₁.entry_price - local_best "SHORT" p₁.highest_price m₁) /
            p₁.entry_price ≤
            (p₁.entry_price - local_best "SHORT" p₂.highest_price m₂) /
            p₁.entry_price :=
          (div_le_div_right hpos).mpr (by linarith)
        nlinarith [mul_le_mul_of_nonneg_right h1 hlev.le]

theorem C1_witness :
    (compute_stop_state sample_config sample_long 101
      (some (caller_unrealized_pnl_pct "LONG" sample_long.entry_price 101 1 20))
      (some 20) (some 1)).stop_mode = "dynamic" := by
  have h₁ : (compute_stop_state sample_config sample_long 102
      (some (caller_unrealized_pnl_pct "LONG" sample_long.entry_price 102 1 20))
      (some 20) (some 1)).stop_mode = "dynamic" := by
    norm_num [compute_stop_state, stop_state_for_side, dyn_flag,
      effective_trailing_enabled, resolved_trailing_enabled, has_override,
      resolved_lock_ratio, raw_lock_ratio, clamp_lock_ratio,
      resolved_profit_threshold_pct, resolved_base_sl_pct, pbbft_calc,
      price_profit_pct, local_best, base_stop_price_calc, dyn_stop_price_calc,
      effective_qty, effective_leverage, GlobalConfig.get_config_for_side,
      caller_unrealized_pnl_pct, sample_config, sample_long]
    intro hcon
    rw [if_neg (by decide : ¬ ("LONG" : String) = "SHORT")] at hcon
    norm_num at hcon
  have hmono : local_best "LONG" sample_long.highest_price 102 ≤
      local_best "LONG" sample_long.highest_price 101 := by
    norm_num [local_best, sample_long]
    rw [if_neg (by decide : ¬ ("LONG" : String) = "SHORT")]
  exact ((C1_theorem sample_config sample_long sample_long 102 101 20 1 1
    (some 20) (some 1) (some 20) (some 1) rfl rfl (by norm_num [sample_long])
    (by norm_num) (by norm_num) (by norm_num) rfl rfl rfl).1 rfl hmono).2
    (by norm_num [sample_long]) h₁

theorem raised_max_some_mono (m total target : ℚ) :
    ∃ m', raised_max (some m) total target = some m' ∧ m ≤ m' := by
  unfold raised_max
  by_cases h : target ≤ total
  · rw [if_pos h]
    by_cases h2 : m < total
    · refine ⟨total, ?_, le_of_lt h2⟩
      show (if m < total then some total else some m) = some total
      rw [if_pos h2]
    · refine ⟨m, ?_, le_refl m⟩
      show (if m < total then some total else some m) = some m
      rw [if_neg h2]
  · rw [if_neg h]
    exact ⟨m, rfl, le_refl m⟩

theorem check_portfolio_eq (cfg : PortfolioTrailingConfig) (glr : Option ℚ)
    (dflt : ℚ) (st : Option ℚ) (ps : List ExchangePosition) (target : ℚ)
    (hen : cfg.enabled = true) (ht : cfg.target_pnl = some target) :
    check_portfolio_trailing_stop cfg glr dflt st ps =
      (match raised_max st (portfolio_total_pnl ps) target with
       | none => (none, [])
       | some m =>
         if portfolio_total_pnl ps ≤ m * (cfg.lock_ratio.getD (glr.getD dflt))
         then (none, force_close_orders ps)
         else (some m, [])) := by
  unfold check_portfolio_trailing_stop
  rw [if_neg (by simp [hen]), ht]

/-- C6: while the portfolio controller is enabled with a target, (a) an armed
watermark is never lowered by a tick — it is either raised (or kept) or reset
to null by the force-close; and (b) on any tick where the (possibly
just-raised) watermark m is armed and the summed unrealized PnL is at or
below m times the effective lock ratio, the controller emits one reduce-only
close order for every nonzero live position and resets the watermark to
null. -/
theorem C6_theorem (cfg : PortfolioTrailingConfig) (glr : Option ℚ)
    (dflt : ℚ) (st : Option ℚ) (ps : List ExchangePosition) (target : ℚ)
    (hen : cfg.enabled = true) (ht : cfg.target_pnl = some target) :
    (∀ m, st = some m →
      (check_portfolio_trailing_stop cfg glr dflt st ps).fst = none ∨
      ∃ m', (check_portfolio_trailing_stop cfg glr dflt st ps).fst = some m' ∧
        m ≤ m') ∧
    (∀ m, raised_max st (portfolio_total_pnl ps) target = some m →
      portfolio_total_pnl ps ≤ m * (cfg.lock_ratio.getD (glr.getD dflt)) →
      (check_portfolio_trailing_stop cfg glr dflt st ps).fst = none ∧
      (check_portfolio_trailing_stop cfg glr dflt st ps).snd =
        force_close_orders ps ∧
      ∀ p ∈ ps, p.position_amt ≠ 0 → p.symbol ≠ "" →
        ({ symbol := p.symbol,
           side := if (0:ℚ) < p.position_amt then "SELL" else "BUY",
           qty := |p.position_amt|, reduce_only := true } :
          PortfolioCloseOrder) ∈
          (check_portfolio_trailing_stop cfg glr dflt st ps).snd) := by
  rw [check_portfolio_eq cfg glr dflt st ps target hen ht]
  constructor
  · intro m hm
    subst hm
    obtain ⟨m', hm', hle⟩ :=
      raised_max_some_mono m (portfolio_total_pnl ps) target
    rw [hm']
    by_cases htr : portfolio_total_pnl ps ≤
        m' * (cfg.lock_ratio.getD (glr.getD dflt))
    · left
      show (if portfolio_total_pnl ps ≤
          m' * (cfg.lock_ratio.getD (glr.getD dflt))
        then ((none : Option ℚ), force_close_orders ps)
        else (some m', [])).fst = none
      rw [if_pos htr]
    · right
      refine ⟨m', ?_, hle⟩
      show (if portfolio_total_pnl ps ≤
          m' * (cfg.lock_ratio.getD (glr.getD dflt))
        then ((none : Option ℚ), force_close_orders ps)
        else (some m', [])).fst = some m'
      rw [if_neg htr]
  · intro m hm htr
    rw [hm]
    have hred : (match some m with
       | none => ((none : Option ℚ), ([] : List PortfolioCloseOrder))
       | some m =>
         if portfolio_total_pnl ps ≤ m * (cfg.lock_ratio.getD (glr.getD dflt))
         then (none, force_close_orders ps)
         else (some m, [])) = (none, force_close_orders ps) := by
      show (if portfolio_total_pnl ps ≤
          m * (cfg.lock_ratio.getD (glr.getD dflt))
        then ((none : Option ℚ), force_close_orders ps)
        else (some m, [])) = (none, force_close_orders ps)
      rw [if_pos htr]
    rw [hred]
    refine ⟨rfl, rfl, ?_⟩
    intro p hp h1 h2
    exact List.mem_map.mpr ⟨p, List.mem_filter.mpr ⟨hp, by simp [h1, h2]⟩, rfl⟩

/-- The portfolio configuration of spec scenario D. -/
def sample_portfolio_cfg : PortfolioTrailingConfig :=
  { enabled := true, target_pnl := some 50, lock_ratio := some (1/2) }

/-- One live BTCUSDT long with 40 USDT of unrealized profit. -/
def sample_positions : List ExchangePosition :=
  [{ symbol := "BTCUSDT", position_amt := 1, unrealized_pnl := 40 }]

theorem C6_witness :
    (check_portfolio_trailing_stop sample_portfolio_cfg none (1/2) (some 80)
        sample_positions).fst = none ∧
    (check_portfolio_trailing_stop sample_portfolio_cfg none (1/2) (some 80)
        sample_positions).snd = force_close_orders sample_positions ∧
    ∀ p ∈ sample_positions, p.position_amt ≠ 0 → p.symbol ≠ "" →
      ({ symbol := p.symbol,
         side := if (0:ℚ) < p.position_amt then "SELL" else "BUY",
         qty := |p.position_amt|, reduce_only := true } :
        PortfolioCloseOrder) ∈
        (check_portfolio_trailing_stop sample_portfolio_cfg none (1/2)
          (some 80) sample_positions).snd := by
  have hr : raised_max (some 80) (portfolio_total_pnl sample_positions) 50 =
      some 80 := by
    norm_num [raised_max, portfolio_total_pnl, sample_positions]
  have hthr : portfolio_total_pnl sample_positions ≤
      80 * (sample_portfolio_cfg.lock_ratio.getD
        ((none : Option ℚ).getD (1/2))) := by
    norm_num [portfolio_total_pnl, sample_positions, sample_portfolio_cfg]
  exact (C6_theorem sample_portfolio_cfg none (1/2) (some 80) sample_positions
    50 rfl rfl).2 80 hr hthr

/-- C10: a newly discovered non-bot position with a positive entry price and
no prior tracking entry gets its extreme initialized to `max(mark, entry)`
for LONG and `min(mark, entry)` for SHORT — not to the mark price alone —
and the stop evaluation runs against that extreme in the same first cycle,
whereas the system-owned extreme update skips the stop check on its first
observation. -/
theorem C10_theorem (cfg : GlobalConfig) (tc th bs : Option ℚ)
    (entry mark amt upnl lev : ℚ) (hentry : 0 < entry) :
    (non_bot_step cfg none tc th bs "LONG" entry mark amt upnl
        lev).fst.highest_price = some (max mark entry) ∧
    (non_bot_step cfg none tc th bs "SHORT" entry mark amt upnl
        lev).fst.highest_price = some (min mark entry) ∧
    (non_bot_step cfg none tc th bs "LONG" entry mark amt upnl
        lev).snd.fst =
      compute_stop_state cfg
        { entry_price := entry, highest_price := some (max mark entry),
          side := "LONG", trail_callback := tc,
          dyn_profit_threshold_pct := th, base_stop_loss_pct := bs,
          qty := none } mark (non_bot_pnl_pct entry amt upnl lev) (some lev)
        (some |amt|) ∧
    (non_bot_step cfg none tc th bs "SHORT" entry mark amt upnl
        lev).snd.fst =
      compute_stop_state cfg
        { entry_price := entry, highest_price := some (min mark entry),
          side := "SHORT", trail_callback := tc,
          dyn_profit_threshold_pct := th, base_stop_loss_pct := bs,
          qty := none } mark (non_bot_pnl_pct entry amt upnl lev) (some lev)
        (some |amt|) ∧
    check_trailing_stop_extreme_update "LONG" none mark =
      (some mark, false) ∧
    check_trailing_stop_extreme_update "SHORT" none mark =
      (some mark, false) := by
  have hL : non_bot_tracking_update none "LONG" entry mark =
      { entry_price := some entry, highest_price := some (max mark entry),
        side := "LONG" } := by
    show ({ entry_price := some entry,
            highest_price := some (if 0 < entry then max mark entry else mark),
            side := "LONG" } : NonBotTracked) = _
    rw [if_pos hentry]
  have hS : non_bot_tracking_update none "SHORT" entry mark =
      { entry_price := some entry, highest_price := some (min mark entry),
        side := "SHORT" } := by
    show ({ entry_price := some entry,
            highest_price := some (if 0 < entry then min mark entry else mark),
            side := "SHORT" } : NonBotTracked) = _
    rw [if_pos hentry]
  refine ⟨?_, ?_, ?_, ?_, rfl, rfl⟩
  · simp only [non_bot_step, hL]
  · simp only [non_bot_step, hS]
  · simp only [non_bot_step, hL, ite_self]
  · simp only [non_bot_step, hS, ite_self]

theorem C10_witness :
    (non_bot_step sample_config none none none none "LONG" 100 95 2 (-10)
        20).fst.highest_price = some (max (95:ℚ) 100) ∧
    (non_bot_step sample_config none none none none "SHORT" 100 95 2 (-10)
        20).fst.highest_price = some (min (95:ℚ) 100) ∧
    (non_bot_step sample_config none none none none "LONG" 100 95 2 (-10)
        20).snd.fst =
      compute_stop_state sample_config
        { entry_price := 100, highest_price := some (max (95:ℚ) 100),
          side := "LONG", trail_callback := none,
          dyn_profit_threshold_pct := none, base_stop_loss_pct := none,
          qty := none } 95 (non_bot_pnl_pct 100 2 (-10) 20) (some 20)
        (some |(2:ℚ)|) ∧
    (non_bot_step sample_config none none none none "SHORT" 100 95 2 (-10)
        20).snd.fst =
      compute_stop_state sample_config
        { entry_price := 100, highest_price := some (min (95:ℚ) 100),
          side := "SHORT", trail_callback := none,
          dyn_profit_threshold_pct := none, base_stop_loss_pct := none,
          qty := none } 95 (non_bot_pnl_pct 100 2 (-10) 20) (some 20)
        (some |(2:ℚ)|) ∧
    check_trailing_stop_extreme_update "LONG" none 95 =
      (some (95:ℚ), false) ∧
    check_trailing_stop_extreme_update "SHORT" none 95 =
      (some (95:ℚ), false) :=
  C10_theorem sample_config none none none 100 95 2 (-10) 20 (by norm_num)

end TVBot
